import Mathlib

/-!
Shallow embedding of the `Ship` model from `ship.py` (ShipStablity repository).

The loading / hydrostatics paths are exact arithmetic over `ℚ` (Python floats
modelled as exact rationals; every constant in the source is decimal, so the
translation is value-faithful up to rounding, which none of the verified
properties depends on).  The trigonometric righting-arm path is modelled over
`ℝ`.  The resistance and wave-interaction paths, whose behaviour on the claimed
inputs hinges on IEEE-754 special values produced by numpy (`log10(0) = -inf`,
`sqrt` of a negative = `nan`), are modelled over `NpF`, an extended-real type
mirroring numpy float64 semantics for the operations the source uses.
-/

namespace ShipStability

/-- A cargo item, `{'weight': w, 'vertical_position': v, 'longitudinal_position': l}`. -/
structure Cargo where
  weight : ℚ
  vertical_position : ℚ
  longitudinal_position : ℚ

/-- A ballast tank, `{'weight': w, 'vertical_position': v}`. -/
structure Tank where
  weight : ℚ
  vertical_position : ℚ

/-- The mutable state of a `Ship` object: constructor arguments, hydrostatic
data, resistance data, loading lists and wave parameters, exactly the
attributes the Python class carries (attributes that Python creates lazily,
such as `LCG` and the fields first assigned inside `calculate_hydrostatics`,
are present from the start, initialised by the constructor path). -/
structure Ship where
  length : ℚ
  beam : ℚ
  draft : ℚ
  displacement : ℚ
  block_coefficient : ℚ
  water_plane_area_coefficient : ℚ
  prismatic_coefficient : ℚ
  hull_form_factor : ℚ
  KB : ℚ
  KG : ℚ
  GM : ℚ
  BM : ℚ
  KMT : ℚ
  hull_resistance : ℚ
  power_required : ℚ
  cargo_list : List Cargo
  ballast_tanks : List Tank
  wave_height : ℚ
  wave_length : ℚ
  wave_period : ℚ
  time : ℚ
  rho_water : ℚ
  gravity : ℚ
  volume_displaced : ℚ
  buoyancy_force : ℚ
  waterplane_area : ℚ
  waterplane_moment_inertia : ℚ
  BML : ℚ
  GML : ℚ
  LCG : ℚ

/-- `Ship.calculate_hydrostatics` (ship.py lines 37-61), translated
line by line.  Note that line 52 of the source assigns
`self.KG = self.draft / 2` unconditionally on every call. -/
def Ship.calculate_hydrostatics (s : Ship) : Ship :=
  let rho_water : ℚ := 1025
  let gravity : ℚ := 981 / 100
  let volume_displaced := s.displacement / rho_water
  let buoyancy_force := rho_water * gravity * volume_displaced
  let waterplane_area := s.length * s.beam * s.water_plane_area_coefficient
  let waterplane_moment_inertia := (s.beam ^ 3) * s.length / 12
  let KB := s.block_coefficient * s.draft / 3
  let KG := s.draft / 2
  let BM := waterplane_moment_inertia / volume_displaced
  let GM := KB + BM - KG
  let KMT := BM
  let BML := s.length ^ 2 / (12 * volume_displaced)
  let GML := KB + BML - KG
  { s with
    rho_water := rho_water
    gravity := gravity
    volume_displaced := volume_displaced
    buoyancy_force := buoyancy_force
    waterplane_area := waterplane_area
    waterplane_moment_inertia := waterplane_moment_inertia
    KB := KB
    KG := KG
    BM := BM
    GM := GM
    KMT := KMT
    BML := BML
    GML := GML }

/-- `Ship.__init__` (ship.py lines 4-35): stores the constructor arguments,
zero-initialises the remaining attributes and ends with the initial
`calculate_hydrostatics()` call. -/
def mkShip (length beam draft displacement block_coefficient
    water_plane_area_coefficient prismatic_coefficient hull_form_factor : ℚ) :
    Ship :=
  Ship.calculate_hydrostatics
    { length := length
      beam := beam
      draft := draft
      displacement := displacement
      block_coefficient := block_coefficient
      water_plane_area_coefficient := water_plane_area_coefficient
      prismatic_coefficient := prismatic_coefficient
      hull_form_factor := hull_form_factor
      KB := 0, KG := 0, GM := 0, BM := 0, KMT := 0
      hull_resistance := 0, power_required := 0
      cargo_list := [], ballast_tanks := []
      wave_height := 0, wave_length := 0, wave_period := 0, time := 0
      rho_water := 0, gravity := 0
      volume_displaced := 0, buoyancy_force := 0
      waterplane_area := 0, waterplane_moment_inertia := 0
      BML := 0, GML := 0, LCG := 0 }

/-- `Ship.update_cargo_effects` (ship.py lines 67-83). -/
def Ship.update_cargo_effects (s : Ship) : Ship :=
  let total_cargo_weight := (s.cargo_list.map fun cargo => cargo.weight).sum
  let total_cargo_vertical_moment :=
    (s.cargo_list.map fun cargo => cargo.weight * cargo.vertical_position).sum
  let total_cargo_longitudinal_moment :=
    (s.cargo_list.map fun cargo => cargo.weight * cargo.longitudinal_position).sum
  let total_weight := s.displacement + total_cargo_weight
  let total_vertical_moment := s.KG * s.displacement + total_cargo_vertical_moment
  let total_longitudinal_moment := total_cargo_longitudinal_moment
  Ship.calculate_hydrostatics
    { s with
      KG := total_vertical_moment / total_weight
      displacement := total_weight
      LCG := total_longitudinal_moment / total_weight }

/-- `Ship.add_cargo` (ship.py lines 63-65): replaces the cargo list, then
updates the cargo effects. -/
def Ship.add_cargo (s : Ship) (cargo_list : List Cargo) : Ship :=
  Ship.update_cargo_effects { s with cargo_list := cargo_list }

/-- `Ship.update_ballast_effects` (ship.py lines 112-124). -/
def Ship.update_ballast_effects (s : Ship) : Ship :=
  let total_ballast_weight := (s.ballast_tanks.map fun tank => tank.weight).sum
  let total_ballast_moment :=
    (s.ballast_tanks.map fun tank => tank.weight * tank.vertical_position).sum
  let total_weight := s.displacement + total_ballast_weight
  let total_moment := s.KG * s.displacement + total_ballast_moment
  Ship.calculate_hydrostatics
    { s with
      KG := total_moment / total_weight
      displacement := total_weight }

/-- `Ship.add_ballast_tank` (ship.py lines 108-110): appends the tank to the
ballast list, then updates the ballast effects. -/
def Ship.add_ballast_tank (s : Ship) (ballast_tank : Tank) : Ship :=
  Ship.update_ballast_effects { s with ballast_tanks := s.ballast_tanks ++ [ballast_tank] }

/-- `Ship.check_structural_stress` (ship.py lines 140-144). -/
def Ship.check_structural_stress (s : Ship) : ℚ :=
  let bending_moment := (1 / 10) * s.displacement * s.length
  let max_stress := bending_moment / (s.length * s.beam)
  max_stress

/-- `Ship.set_wave_parameters` (ship.py lines 146-149). -/
def Ship.set_wave_parameters (s : Ship) (wave_height wave_length wave_period : ℚ) : Ship :=
  { s with
    wave_height := wave_height
    wave_length := wave_length
    wave_period := wave_period }

/-- `Ship.update_time` (ship.py lines 151-152). -/
def Ship.update_time (s : Ship) (time : ℚ) : Ship :=
  { s with time := time }

/-- `Ship.calculate_righting_arm` (ship.py lines 154-171), over `ℝ`
(`np.radians d = d * π / 180`; the wave-induced heel is added when
`wave_length > 0 and wave_period > 0`). -/
noncomputable def Ship.calculate_righting_arm (s : Ship) (heel_angle_deg : ℝ) : ℝ :=
  let heel_angle_rad := heel_angle_deg * (Real.pi / 180)
  let wave_induced_heel_angle_rad :=
    if 0 < s.wave_length ∧ 0 < s.wave_period then
      let k := 2 * Real.pi / (s.wave_length : ℝ)
      let omega := 2 * Real.pi / (s.wave_period : ℝ)
      let wave_slope := (s.wave_height : ℝ) * k * Real.cos (k * 0 - omega * (s.time : ℝ))
      Real.arctan wave_slope
    else 0
  let total_heel_angle_rad := heel_angle_rad + wave_induced_heel_angle_rad
  (s.GM : ℝ) * Real.sin total_heel_angle_rad

/-! ### A model of numpy float64 special values

`Ship.calculate_resistance` and `Ship.calculate_wave_interaction` produce
IEEE-754 special values on the inputs named by the error-handling claims
(`np.log10 0 = -inf`, `np.sqrt` of a negative number = `nan`), and numpy
merely warns — no Python exception is raised and execution continues.  `NpF`
is an extended real mirroring exactly the float64 behaviour of the
operations those two methods perform. -/

/-- A numpy float64 value: a finite real, `inf`, `-inf` or `nan`
(signed zeros are not distinguished; none of the verified facts depends
on the sign of a zero). -/
inductive NpF where
  | finite (x : ℝ)
  | inf
  | neginf
  | nan

open scoped Classical in
/-- float64 addition. -/
noncomputable def NpF.add : NpF → NpF → NpF
  | nan, _ => nan
  | _, nan => nan
  | finite a, finite b => finite (a + b)
  | inf, neginf => nan
  | neginf, inf => nan
  | inf, _ => inf
  | _, inf => inf
  | neginf, _ => neginf
  | _, neginf => neginf

open scoped Classical in
/-- float64 subtraction. -/
noncomputable def NpF.sub : NpF → NpF → NpF
  | nan, _ => nan
  | _, nan => nan
  | finite a, finite b => finite (a - b)
  | inf, inf => nan
  | neginf, neginf => nan
  | inf, _ => inf
  | neginf, _ => neginf
  | _, inf => neginf
  | _, neginf => inf

open scoped Classical in
/-- float64 multiplication (`inf * 0 = nan`). -/
noncomputable def NpF.mul : NpF → NpF → NpF
  | nan, _ => nan
  | _, nan => nan
  | finite a, finite b => finite (a * b)
  | inf, inf => inf
  | inf, neginf => neginf
  | neginf, inf => neginf
  | neginf, neginf => inf
  | inf, finite b => if 0 < b then inf else if b < 0 then neginf else nan
  | finite a, inf => if 0 < a then inf else if a < 0 then neginf else nan
  | neginf, finite b => if 0 < b then neginf else if b < 0 then inf else nan
  | finite a, neginf => if 0 < a then neginf else if a < 0 then inf else nan

open scoped Classical in
/-- float64 division (numpy semantics: a finite value divided by zero gives a
signed infinity, `0/0 = nan`, a finite value divided by an infinity gives 0). -/
noncomputable def NpF.div : NpF → NpF → NpF
  | nan, _ => nan
  | _, nan => nan
  | finite a, finite b =>
      if b = 0 then (if a = 0 then nan else if 0 < a then inf else neginf)
      else finite (a / b)
  | finite _, inf => finite 0
  | finite _, neginf => finite 0
  | inf, finite b => if b < 0 then neginf else inf
  | neginf, finite b => if b < 0 then inf else neginf
  | inf, _ => nan
  | neginf, _ => nan

/-- float64 squaring, used for the source's `** 2`. -/
noncomputable def NpF.sq (x : NpF) : NpF := x.mul x

open scoped Classical in
/-- `np.sqrt`: `nan` on negative input (numpy warns and continues). -/
noncomputable def NpF.sqrt : NpF → NpF
  | nan => nan
  | inf => inf
  | neginf => nan
  | finite a => if a < 0 then nan else finite (Real.sqrt a)

open scoped Classical in
/-- `np.log10`: `-inf` at 0, `nan` on negative input (numpy warns and
continues in both cases). -/
noncomputable def NpF.log10 : NpF → NpF
  | nan => nan
  | inf => inf
  | neginf => nan
  | finite a => if a < 0 then nan else if a = 0 then neginf else finite (Real.logb 10 a)

/-- The pair of fields `Ship.calculate_resistance` assigns before returning
`self.hull_resistance`. -/
structure ResistanceResult where
  hull_resistance : NpF
  power_required : NpF

/-- `Ship.calculate_resistance` (ship.py lines 92-106) over `NpF`, following
the source expression for expression (products associate to the left, as in
Python). -/
noncomputable def Ship.calculate_resistance (s : Ship) (ship_speed : NpF) : ResistanceResult :=
  let kinematic_viscosity : NpF := .finite (119 / 10 ^ 8)
  let reynolds_number := (ship_speed.mul (.finite (s.length : ℝ))).div kinematic_viscosity
  let cf := NpF.div (.finite (75 / 1000)) ((reynolds_number.log10.sub (.finite 2)).sq)
  let wetted_surface_area :=
    NpF.add (((NpF.finite (s.length : ℝ)).mul (.finite (s.draft : ℝ))).mul (.finite 2))
      ((NpF.finite (s.beam : ℝ)).mul (.finite (s.length : ℝ)))
  let frictional_resistance :=
    ((((NpF.finite (1 / 2)).mul (.finite (s.rho_water : ℝ))).mul
        wetted_surface_area).mul cf).mul ship_speed.sq
  let residual_resistance := (NpF.finite (s.hull_form_factor : ℝ)).mul frictional_resistance
  let hull_resistance := frictional_resistance.add residual_resistance
  let power_required := (hull_resistance.mul ship_speed).div (.finite 1000)
  { hull_resistance := hull_resistance, power_required := power_required }

/-- The record returned by `Ship.calculate_wave_interaction`. -/
structure WaveInteraction where
  heave : NpF
  roll_period : NpF
  pitch_period : NpF
  motion_response : NpF

/-- `Ship.calculate_wave_interaction` (ship.py lines 126-138) over `NpF`. -/
noncomputable def Ship.calculate_wave_interaction (s : Ship)
    (wave_height wave_length wave_period : NpF) : WaveInteraction :=
  let wave_force :=
    ((((NpF.finite (1 / 2)).mul (.finite (s.rho_water : ℝ))).mul wave_height.sq).mul
        (.finite (s.length : ℝ))).mul (.finite (s.beam : ℝ))
  let natural_roll_period :=
    ((NpF.finite 2).mul (.finite Real.pi)).mul
      (((NpF.finite (s.GM : ℝ)).div (.finite (s.gravity : ℝ))).sqrt)
  let natural_pitch_period :=
    ((NpF.finite 2).mul (.finite Real.pi)).mul
      (((NpF.finite (s.GML : ℝ)).div (.finite (s.gravity : ℝ))).sqrt)
  let response_amplitude_operator :=
    wave_force.div ((NpF.finite (s.displacement : ℝ)).mul (.finite (s.gravity : ℝ)))
  { heave := wave_force.div (.finite (s.displacement : ℝ))
    roll_period := natural_roll_period
    pitch_period := natural_pitch_period
    motion_response := response_amplitude_operator }

/-! ### Sequences of loading mutations (for the cumulative-displacement claim) -/

/-- One loading mutation: an `add_cargo` call (with its full argument list)
or an `add_ballast_tank` call. -/
inductive LoadOp where
  | cargo (items : List Cargo)
  | ballast (tank : Tank)

/-- Apply one loading mutation to the model. -/
def Ship.applyLoadOp (s : Ship) : LoadOp → Ship
  | .cargo items => s.add_cargo items
  | .ballast tank => s.add_ballast_tank tank

/-- Apply a sequence of loading mutations, oldest first. -/
def Ship.applyLoadOps (s : Ship) : List LoadOp → Ship
  | [] => s
  | op :: rest => (s.applyLoadOp op).applyLoadOps rest

/-- The sum of the weights of all cargo items and ballast tanks passed to the
mutation calls, each counted once — the quantity claim C2 says is added to the
lightship displacement. -/
def claimedWeight : List LoadOp → ℚ
  | [] => 0
  | .cargo items :: rest => (items.map fun c => c.weight).sum + claimedWeight rest
  | .ballast tank :: rest => tank.weight + claimedWeight rest

/-- The weight the code actually folds into `displacement`: each `add_cargo`
call contributes the total weight of its argument list, and each
`add_ballast_tank` call contributes the total weight of the whole accumulated
ballast list as it stands just after the append (the first argument tracks the
tanks already present). -/
def foldedWeight : List LoadOp → List Tank → ℚ
  | [], _ => 0
  | .cargo items :: rest, tanks =>
      (items.map fun c => c.weight).sum + foldedWeight rest tanks
  | .ballast tank :: rest, tanks =>
      ((tanks ++ [tank]).map fun tk => tk.weight).sum + foldedWeight rest (tanks ++ [tank])

/-! ### Unfolding lemmas -/

@[simp] lemma Ship.calculate_hydrostatics_displacement (s : Ship) :
    s.calculate_hydrostatics.displacement = s.displacement := rfl

@[simp] lemma Ship.calculate_hydrostatics_ballast_tanks (s : Ship) :
    s.calculate_hydrostatics.ballast_tanks = s.ballast_tanks := rfl

@[simp] lemma Ship.calculate_hydrostatics_cargo_list (s : Ship) :
    s.calculate_hydrostatics.cargo_list = s.cargo_list := rfl

@[simp] lemma Ship.calculate_hydrostatics_KG (s : Ship) :
    s.calculate_hydrostatics.KG = s.draft / 2 := rfl

@[simp] lemma Ship.calculate_hydrostatics_GM (s : Ship) :
    s.calculate_hydrostatics.GM =
      s.block_coefficient * s.draft / 3 + s.beam ^ 3 * s.length / 12 / (s.displacement / 1025)
        - s.draft / 2 := rfl

@[simp] lemma Ship.add_cargo_displacement (s : Ship) (l : List Cargo) :
    (s.add_cargo l).displacement = s.displacement + (l.map fun c => c.weight).sum := rfl

@[simp] lemma Ship.add_cargo_ballast_tanks (s : Ship) (l : List Cargo) :
    (s.add_cargo l).ballast_tanks = s.ballast_tanks := rfl

@[simp] lemma Ship.add_cargo_KG (s : Ship) (l : List Cargo) :
    (s.add_cargo l).KG = s.draft / 2 := rfl

@[simp] lemma Ship.add_cargo_GM (s : Ship) (l : List Cargo) :
    (s.add_cargo l).GM =
      s.block_coefficient * s.draft / 3 +
        s.beam ^ 3 * s.length / 12 /
          ((s.displacement + (l.map fun c => c.weight).sum) / 1025) - s.draft / 2 := rfl

@[simp] lemma Ship.add_ballast_tank_displacement (s : Ship) (t : Tank) :
    (s.add_ballast_tank t).displacement =
      s.displacement + ((s.ballast_tanks ++ [t]).map fun tk => tk.weight).sum := rfl

@[simp] lemma Ship.add_ballast_tank_ballast_tanks (s : Ship) (t : Tank) :
    (s.add_ballast_tank t).ballast_tanks = s.ballast_tanks ++ [t] := rfl

@[simp] lemma Ship.add_ballast_tank_KG (s : Ship) (t : Tank) :
    (s.add_ballast_tank t).KG = s.draft / 2 := rfl

@[simp] lemma Ship.calculate_hydrostatics_length (s : Ship) :
    s.calculate_hydrostatics.length = s.length := rfl

@[simp] lemma Ship.calculate_hydrostatics_beam (s : Ship) :
    s.calculate_hydrostatics.beam = s.beam := rfl

@[simp] lemma Ship.calculate_hydrostatics_draft (s : Ship) :
    s.calculate_hydrostatics.draft = s.draft := rfl

@[simp] lemma Ship.calculate_hydrostatics_block_coefficient (s : Ship) :
    s.calculate_hydrostatics.block_coefficient = s.block_coefficient := rfl

@[simp] lemma Ship.calculate_hydrostatics_wave_length (s : Ship) :
    s.calculate_hydrostatics.wave_length = s.wave_length := rfl

@[simp] lemma Ship.calculate_hydrostatics_wave_period (s : Ship) :
    s.calculate_hydrostatics.wave_period = s.wave_period := rfl

@[simp] lemma Ship.calculate_hydrostatics_wave_height (s : Ship) :
    s.calculate_hydrostatics.wave_height = s.wave_height := rfl

@[simp] lemma Ship.calculate_hydrostatics_time (s : Ship) :
    s.calculate_hydrostatics.time = s.time := rfl

@[simp] lemma Ship.calculate_hydrostatics_rho_water (s : Ship) :
    s.calculate_hydrostatics.rho_water = 1025 := rfl

@[simp] lemma Ship.calculate_hydrostatics_gravity (s : Ship) :
    s.calculate_hydrostatics.gravity = 981 / 100 := rfl

@[simp] lemma Ship.calculate_hydrostatics_hull_form_factor (s : Ship) :
    s.calculate_hydrostatics.hull_form_factor = s.hull_form_factor := rfl

@[simp] lemma Ship.calculate_hydrostatics_GML (s : Ship) :
    s.calculate_hydrostatics.GML =
      s.block_coefficient * s.draft / 3 + s.length ^ 2 / (12 * (s.displacement / 1025))
        - s.draft / 2 := rfl

/-! ### Concrete model states used by the evaluations -/

/-- The demonstration vessel of the repository (app.py defaults / test_ship.py):
length 100 m, beam 20 m, draft 10 m, lightship displacement 20000 t,
Cb = 0.7, Cwp = 0.85, Cp = 0.6, form factor 1.05. -/
def ship0 : Ship := mkShip 100 20 10 20000 (7 / 10) (17 / 20) (3 / 5) (21 / 20)

/-- A slender, deep-loaded variant whose computed GM and GML are negative:
beam 1 m, displacement 1000000 t, the other parameters as `ship0`. -/
def shipUnstable : Ship := mkShip 100 1 10 1000000 (7 / 10) (17 / 20) (3 / 5) (21 / 20)

/-- The state reached inside `update_cargo_effects` after line 78 of ship.py
has assigned the moment-derived KG (and line 79 the displacement), and just
before line 83 calls `calculate_hydrostatics`: cargo of 500 t at 10 m above
keel on `ship0` gives KG = (5 * 20000 + 500 * 10) / 20500 = 210 / 41. -/
def c1State : Ship := { ship0 with displacement := 20500, KG := 210 / 41 }

/-! ## The claims -/

/-- Claim C9: for every model state with positive length, beam, draft and
displacement (valid geometry), `calculate_hydrostatics` is idempotent —
calling it twice in a row yields exactly the same state, hence the same
derived hydrostatic values, as calling it once. -/
theorem C9_calculate_hydrostatics_idempotent (s : Ship)
    (hl : 0 < s.length) (hb : 0 < s.beam) (hd : 0 < s.draft) (hw : 0 < s.displacement) :
    s.calculate_hydrostatics.calculate_hydrostatics = s.calculate_hydrostatics := rfl

/-- Witness for C9 at the repository's demonstration vessel. -/
theorem C9_witness :
    (0 < ship0.length ∧ 0 < ship0.beam ∧ 0 < ship0.draft ∧ 0 < ship0.displacement) ∧
      ship0.calculate_hydrostatics.calculate_hydrostatics = ship0.calculate_hydrostatics :=
  ⟨⟨by norm_num [ship0, mkShip], by norm_num [ship0, mkShip], by norm_num [ship0, mkShip],
      by norm_num [ship0, mkShip]⟩,
    C9_calculate_hydrostatics_idempotent ship0 (by norm_num [ship0, mkShip])
      (by norm_num [ship0, mkShip]) (by norm_num [ship0, mkShip]) (by norm_num [ship0, mkShip])⟩

/-- Claim C10: for every model state with positive length and beam,
`check_structural_stress` returns `0.1 * displacement / beam`; the length
factor of the bending moment cancels against the length in the section
divisor, so the result is independent of the vessel's length. -/
theorem C10_structural_stress_length_cancels (s : Ship)
    (hl : 0 < s.length) (hb : 0 < s.beam) :
    s.check_structural_stress = 1 / 10 * s.displacement / s.beam := by
  have hl0 : s.length ≠ 0 := ne_of_gt hl
  have hb0 : s.beam ≠ 0 := ne_of_gt hb
  unfold Ship.check_structural_stress
  field_simp
  ring

/-- Witness for C10 at the repository's demonstration vessel. -/
theorem C10_witness :
    (0 < ship0.length ∧ 0 < ship0.beam) ∧
      ship0.check_structural_stress = 1 / 10 * ship0.displacement / ship0.beam :=
  ⟨⟨by norm_num [ship0, mkShip], by norm_num [ship0, mkShip]⟩,
    C10_structural_stress_length_cancels ship0 (by norm_num [ship0, mkShip])
      (by norm_num [ship0, mkShip])⟩

/-- Claim C1 (refuted as stated; the code overwrites KG): at the state
`calculate_hydrostatics` is called from inside `update_cargo_effects` — the
one place the "KG is owned by the loading mutation path" contract matters —
the call does NOT leave KG at its prior value 210/41; and end to end,
`add_cargo` leaves KG at draft / 2 (the line-52 reset) instead of the
moment-derived value line 78 of ship.py computed. -/
theorem C1_calculate_hydrostatics_overwrites_KG :
    c1State.calculate_hydrostatics.KG ≠ c1State.KG ∧
      (ship0.add_cargo [⟨500, 10, 50⟩]).KG = ship0.draft / 2 := by
  constructor
  · norm_num [c1State, ship0, mkShip]
  · rfl

/-- Each loading mutation adds to `displacement` the weight the code folds in:
the call's cargo-list total for `add_cargo`, the whole accumulated ballast
total for `add_ballast_tank`. -/
lemma applyLoadOps_displacement (ops : List LoadOp) :
    ∀ s : Ship, (s.applyLoadOps ops).displacement =
      s.displacement + foldedWeight ops s.ballast_tanks := by
  induction ops with
  | nil => intro s; simp [Ship.applyLoadOps, foldedWeight]
  | cons op rest ih =>
    intro s
    cases op with
    | cargo items =>
        simp [Ship.applyLoadOps, Ship.applyLoadOp, foldedWeight, ih, add_assoc]
    | ballast tank =>
        simp [Ship.applyLoadOps, Ship.applyLoadOp, foldedWeight, ih, add_assoc]

/-- Claim C2 (refuted as stated): two successive `add_ballast_tank` calls of
1 t each on the freshly constructed demonstration vessel leave the
displacement at 20003 t, not at lightship 20000 t plus the 2 t sum of the
added weights — the first tank is re-counted by the second call. -/
theorem C2_counterexample :
    (ship0.applyLoadOps [.ballast ⟨1, 0⟩, .ballast ⟨1, 0⟩]).displacement ≠
        ship0.displacement + claimedWeight [.ballast ⟨1, 0⟩, .ballast ⟨1, 0⟩] ∧
      (ship0.applyLoadOps [.ballast ⟨1, 0⟩, .ballast ⟨1, 0⟩]).displacement = 20003 := by
  constructor
  · norm_num [ship0, mkShip, Ship.applyLoadOps, Ship.applyLoadOp, claimedWeight]
  · norm_num [ship0, mkShip, Ship.applyLoadOps, Ship.applyLoadOp]

/-- Claim C2 as amended: for every sequence of `add_cargo` and
`add_ballast_tank` calls starting from a freshly constructed model, the
displacement afterwards equals the lightship displacement plus `foldedWeight`:
every `add_cargo` call contributes the total weight of its argument list, and
every `add_ballast_tank` call contributes the total weight of the entire
ballast list as of that call — so the i-th tank added is counted once per
`add_ballast_tank` call from its own onward, not once overall. -/
theorem C2_amended_displacement (length beam draft displacement block_coefficient
    water_plane_area_coefficient prismatic_coefficient hull_form_factor : ℚ)
    (ops : List LoadOp) :
    ((mkShip length beam draft displacement block_coefficient
        water_plane_area_coefficient prismatic_coefficient
        hull_form_factor).applyLoadOps ops).displacement =
      displacement + foldedWeight ops [] := by
  have h := applyLoadOps_displacement ops
    (mkShip length beam draft displacement block_coefficient
      water_plane_area_coefficient prismatic_coefficient hull_form_factor)
  simpa [mkShip] using h

/-- Claim C3 (refuted as stated): on the demonstration vessel, a 500 t cargo
item at vertical position 0, strictly below the current KG of 5 m, strictly
lowers GM instead of raising it (the hydrostatics recompute resets KG to
draft / 2 and BM falls with the larger displacement). -/
theorem C3_counterexample :
    (0 : ℚ) < ship0.KG ∧ (ship0.add_cargo [⟨500, 0, 0⟩]).GM < ship0.GM := by
  constructor
  · norm_num [ship0, mkShip]
  · norm_num [ship0, mkShip]

/-- Claim C3 as amended: adding any single cargo item of positive weight to a
model state with positive length, beam and displacement whose GM field is the
value `calculate_hydrostatics` derives (as in every state the code produces)
strictly lowers GM, wherever the item sits vertically: KG is reset to
draft / 2 by the recompute, and BM strictly decreases as displacement grows. -/
theorem C3_amended_cargo_lowers_GM (s : Ship) (c : Cargo)
    (hw : 0 < c.weight) (hl : 0 < s.length) (hb : 0 < s.beam) (hd : 0 < s.displacement)
    (hGM : s.GM = s.calculate_hydrostatics.GM) :
    (s.add_cargo [c]).GM < s.GM := by
  rw [hGM]
  simp only [Ship.add_cargo_GM, Ship.calculate_hydrostatics_GM, List.map_cons, List.map_nil,
    List.sum_cons, List.sum_nil, add_zero]
  have hI : 0 < s.beam ^ 3 * s.length / 12 := by positivity
  have h1 : 0 < s.displacement / 1025 := by positivity
  have h2 : s.displacement / 1025 < (s.displacement + c.weight) / 1025 := by linarith
  have h3 := div_lt_div_of_pos_left hI h1 h2
  linarith

/-- Witness for the amended C3: a 300 t item at 12 m above keel on the
demonstration vessel lowers GM. -/
theorem C3_witness :
    ship0.GM = ship0.calculate_hydrostatics.GM ∧
      (ship0.add_cargo [⟨300, 12, 50⟩]).GM < ship0.GM :=
  ⟨by simp [ship0, mkShip],
    C3_amended_cargo_lowers_GM ship0 ⟨300, 12, 50⟩ (by norm_num)
      (by norm_num [ship0, mkShip]) (by norm_num [ship0, mkShip])
      (by norm_num [ship0, mkShip]) (by simp [ship0, mkShip])⟩

/-- An arbitrary model state: the demonstration vessel with one 5 t ballast
tank already on the list and a KG field of 3 m (≠ draft / 2). -/
def c6State : Ship := { ship0 with ballast_tanks := [⟨5, 2⟩], KG := 3 }

/-- Claim C6 (refuted as stated): adding a ballast tank of weight 0 to a
state whose ballast list already holds a 5 t tank raises displacement by the
5 t that get re-counted, and resets KG from 3 m to draft / 2 = 5 m — neither
field is left unchanged. -/
theorem C6_counterexample :
    (c6State.add_ballast_tank ⟨0, 1⟩).displacement ≠ c6State.displacement ∧
      (c6State.add_ballast_tank ⟨0, 1⟩).KG ≠ c6State.KG := by
  constructor
  · norm_num [c6State, ship0, mkShip]
  · norm_num [c6State, ship0, mkShip]

/-- Claim C6 as amended: adding a ballast tank of weight 0 leaves displacement
and KG unchanged provided the ballast list was empty beforehand and the KG
field already holds draft / 2, the value the hydrostatics recompute assigns
(both hold in every state the constructor or a mutation produces with no
ballast yet loaded). -/
theorem C6_amended_zero_ballast (s : Ship) (t : Tank) (hw : t.weight = 0)
    (hb : s.ballast_tanks = []) (hKG : s.KG = s.draft / 2) :
    (s.add_ballast_tank t).displacement = s.displacement ∧
      (s.add_ballast_tank t).KG = s.KG := by
  constructor
  · simp [hb, hw]
  · simp [hKG]

/-- Witness for the amended C6 on the freshly constructed demonstration
vessel. -/
theorem C6_witness :
    ((⟨0, 3⟩ : Tank).weight = 0 ∧ ship0.ballast_tanks = [] ∧ ship0.KG = ship0.draft / 2) ∧
      (ship0.add_ballast_tank ⟨0, 3⟩).displacement = ship0.displacement ∧
        (ship0.add_ballast_tank ⟨0, 3⟩).KG = ship0.KG :=
  ⟨⟨rfl, by simp [ship0, mkShip], by simp [ship0, mkShip]⟩,
    C6_amended_zero_ballast ship0 ⟨0, 3⟩ rfl (by simp [ship0, mkShip])
      (by simp [ship0, mkShip])⟩

/-- The demonstration vessel with wave parameters height 1 m, length 1 m,
period 1 s applied and time 0, a valid model state for the righting-arm
query. -/
def c7State : Ship := (ship0.set_wave_parameters 1 1 1).update_time 0

/-- Claim C7 (refuted as stated): with wave parameters set, the wave-induced
heel is added to the requested heel angle, so `calculate_righting_arm 0`
returns `GM * sin (arctan (2 * pi))`, which is strictly positive for the
demonstration vessel — not 0. -/
theorem C7_counterexample : c7State.calculate_righting_arm 0 ≠ 0 := by
  have hval : c7State.calculate_righting_arm 0 =
      (c7State.GM : ℝ) * Real.sin (Real.arctan (2 * Real.pi)) := by
    simp only [Ship.calculate_righting_arm]
    rw [if_pos (by constructor <;> norm_num [c7State, Ship.set_wave_parameters,
      Ship.update_time, ship0, mkShip])]
    norm_num [c7State, Ship.set_wave_parameters, Ship.update_time, ship0, mkShip]
  rw [hval]
  have hGM : (0 : ℝ) < (c7State.GM : ℝ) := by
    norm_num [c7State, Ship.set_wave_parameters, Ship.update_time, ship0, mkShip]
  have hs : 0 < Real.sin (Real.arctan (2 * Real.pi)) := by
    rw [Real.sin_arctan]
    positivity
  exact ne_of_gt (mul_pos hGM hs)

/-- Claim C7 as amended: for every model state with no wave applied (it is not
the case that both wave_length and wave_period are positive),
`calculate_righting_arm 0` returns 0, for any GM. -/
theorem C7_amended_GZ_zero_no_wave (s : Ship)
    (h : ¬(0 < s.wave_length ∧ 0 < s.wave_period)) :
    s.calculate_righting_arm 0 = 0 := by
  simp only [Ship.calculate_righting_arm]
  rw [if_neg h]
  simp

/-- Witness for the amended C7 on the freshly constructed demonstration
vessel (wave parameters unset). -/
theorem C7_witness :
    ¬(0 < ship0.wave_length ∧ 0 < ship0.wave_period) ∧
      ship0.calculate_righting_arm 0 = 0 :=
  ⟨by simp [ship0, mkShip], C7_amended_GZ_zero_no_wave ship0 (by simp [ship0, mkShip])⟩

/-- Claim C8: for every model state with positive GM and no wave applied,
the righting arm is monotonically non-decreasing in the heel angle on
[0°, 90°]: if 0 ≤ a ≤ b ≤ 90 then GZ(a) ≤ GZ(b). -/
theorem C8_GZ_monotone (s : Ship) (a b : ℝ) (hGM : 0 < s.GM)
    (hwave : ¬(0 < s.wave_length ∧ 0 < s.wave_period))
    (ha : 0 ≤ a) (hab : a ≤ b) (hb : b ≤ 90) :
    s.calculate_righting_arm a ≤ s.calculate_righting_arm b := by
  simp only [Ship.calculate_righting_arm]
  rw [if_neg hwave]
  simp only [add_zero]
  have hpi := Real.pi_pos
  have hGMR : (0 : ℝ) ≤ (s.GM : ℝ) := by exact_mod_cast hGM.le
  apply mul_le_mul_of_nonneg_left _ hGMR
  have hmem : ∀ x : ℝ, 0 ≤ x → x ≤ 90 →
      x * (Real.pi / 180) ∈ Set.Icc (-(Real.pi / 2)) (Real.pi / 2) := by
    intro x hx0 hx90
    constructor
    · nlinarith
    · nlinarith
  exact Real.strictMonoOn_sin.monotoneOn (hmem a ha (le_trans hab hb))
    (hmem b (le_trans ha hab) hb)
    (mul_le_mul_of_nonneg_right hab (by positivity))

/-- Witness for C8 on the demonstration vessel at heel angles 30° and 60°. -/
theorem C8_witness :
    (0 < ship0.GM ∧ ¬(0 < ship0.wave_length ∧ 0 < ship0.wave_period) ∧
        (0 : ℝ) ≤ 30 ∧ (30 : ℝ) ≤ 60 ∧ (60 : ℝ) ≤ 90) ∧
      ship0.calculate_righting_arm 30 ≤ ship0.calculate_righting_arm 60 :=
  ⟨⟨by norm_num [ship0, mkShip], by simp [ship0, mkShip], by norm_num, by norm_num,
      by norm_num⟩,
    C8_GZ_monotone ship0 30 60 (by norm_num [ship0, mkShip]) (by simp [ship0, mkShip])
      (by norm_num) (by norm_num) (by norm_num)⟩

/-- Claim C4 (the code lacks the required failure): at speed 0 the Reynolds
number is 0, `np.log10 0` is `-inf` (numpy warns and continues), the friction
coefficient `0.075 / (-inf - 2)^2` collapses to 0, and `calculate_resistance`
silently returns hull resistance 0 — no degenerate-speed failure is raised or
reported. -/
theorem C4_resistance_speed_zero_returns_zero :
    (ship0.calculate_resistance (.finite 0)).hull_resistance = NpF.finite 0 ∧
      (ship0.calculate_resistance (.finite 0)).power_required = NpF.finite 0 := by
  constructor
  · norm_num [Ship.calculate_resistance, ship0, mkShip, NpF.mul, NpF.div, NpF.add,
      NpF.sub, NpF.sq, NpF.log10]
  · norm_num [Ship.calculate_resistance, ship0, mkShip, NpF.mul, NpF.div, NpF.add,
      NpF.sub, NpF.sq, NpF.log10]

/-- Claim C5 (the code lacks the required failure): on a vessel whose computed
GM is negative, `np.sqrt (GM / g)` is `nan` (numpy warns and continues) and
`calculate_wave_interaction` silently returns its record with
`roll_period = nan` — alongside an ordinary finite heave of 0.205 m in the
same record — instead of surfacing a distinct unstable-configuration
failure. -/
theorem C5_wave_interaction_returns_nan_record :
    (shipUnstable.calculate_wave_interaction (.finite 2) (.finite 100)
          (.finite 10)).roll_period = NpF.nan ∧
      (shipUnstable.calculate_wave_interaction (.finite 2) (.finite 100)
          (.finite 10)).heave = NpF.finite (41 / 200) := by
  constructor
  · norm_num [Ship.calculate_wave_interaction, shipUnstable, mkShip, NpF.mul, NpF.div,
      NpF.sq, NpF.sqrt]
  · norm_num [Ship.calculate_wave_interaction, shipUnstable, mkShip, NpF.mul, NpF.div,
      NpF.sq]

end ShipStability
